import Mathlib

/-
Verification of the vimiv configuration parser (src/vimiv/configparser.py)
and library pane (src/vimiv/library.py) against their specification.

Python dictionaries are modelled as association lists with unique keys
(insertion order preserved, as in CPython).  Python exceptions are modelled
with the Except monad: ValueError / IndexError / TypeError appear as
explicit error values, and a handler that catches only ValueError lets the
other kinds propagate, exactly like the source's try/except blocks.
-/

/-- Kinds of Python exceptions that the modelled code can raise. -/
inductive PyErr where
  | valueError : PyErr
  | indexError : PyErr
  | typeError : PyErr
deriving DecidableEq

/-- Lookup in a Python-style dictionary modelled as an association list:
`d[k]` returns the value at the first (and, for genuine dictionaries, only)
occurrence of key `k`. -/
def dget {α : Type} : List (String × α) → String → Option α
  | [], _ => none
  | (x, v) :: rest, k => if x = k then some v else dget rest k

/-- Assignment `d[k] = v` on a Python-style dictionary: replace the value at
an existing key in place, otherwise append the new pair at the end. -/
def dset {α : Type} : List (String × α) → String → α → List (String × α)
  | [], k, v => [(k, v)]
  | (x, w) :: rest, k, v =>
      if x = k then (k, v) :: rest else (x, w) :: dset rest k v

/-- Python `base.update(other)`: assign every pair of `other` into `base`,
in order, so entries of `other` override entries of `base`. -/
def dupdate {α : Type} (base other : List (String × α)) : List (String × α) :=
  other.foldl (fun d p => dset d p.1 p.2) base

/-- First-defined choice on options (used to state lookup precedence). -/
def oor {α : Type} : Option α → Option α → Option α
  | some x, _ => some x
  | none, b => b

/-- Strip whitespace from both ends of a character list (Python `strip`). -/
def pyTrimChars (cs : List Char) : List Char :=
  ((cs.dropWhile Char.isWhitespace).reverse.dropWhile Char.isWhitespace).reverse

/-- Value of a decimal digit string. -/
def digitsToNat (cs : List Char) : Nat :=
  cs.foldl (fun acc c => 10 * acc + (c.toNat - 48)) 0

/-- Parse a non-empty run of decimal digits, the numeral core accepted by
Python `int`. -/
def natCore (cs : List Char) : Option Nat :=
  if cs ≠ [] ∧ cs.all Char.isDigit then some (digitsToNat cs) else none

/-- Python `int(s)` on a string: strip surrounding whitespace, allow one
leading sign, then require a non-empty run of decimal digits; anything else
raises ValueError. -/
def pyInt (s : String) : Except PyErr Int :=
  match pyTrimChars s.toList with
  | '-' :: rest =>
      (match natCore rest with
       | some n => .ok (-(n : Int))
       | none => .error .valueError)
  | '+' :: rest =>
      (match natCore rest with
       | some n => .ok ((n : Int))
       | none => .error .valueError)
  | cs =>
      (match natCore cs with
       | some n => .ok ((n : Int))
       | none => .error .valueError)

/-- Python `s.startswith(pre)`. -/
def pyStartsWith (s pre : String) : Bool :=
  pre.toList.isPrefixOf s.toList

/-- Python `s.endswith(suf)`. -/
def pyEndsWith (s suf : String) : Bool :=
  suf.toList.reverse.isPrefixOf s.toList.reverse

/-- Python `s.lstrip(c)` for a single character: drop every leading `c`. -/
def pyLstrip (s : String) (c : Char) : String :=
  String.mk (s.toList.dropWhile (fun x => x = c))

/-- Python `s.rstrip(c)` for a single character: drop every trailing `c`. -/
def pyRstrip (s : String) (c : Char) : String :=
  String.mk ((s.toList.reverse.dropWhile (fun x => x = c)).reverse)

/-- Split a character list at every separator, keeping empty parts, always
returning at least one part (Python single-separator `split`). -/
def splitChars (cs : List Char) (p : Char → Bool) : List (List Char) :=
  match cs with
  | [] => [[]]
  | c :: rest =>
      match splitChars rest p with
      | [] => [[c]]
      | h :: t => if p c then [] :: h :: t else (c :: h) :: t

/-- Python `s.split(",")`: split at every comma, keeping empty parts, always
returning at least one part. -/
def pySplitComma (s : String) : List String :=
  (splitChars s.toList (fun c => c = ',')).map String.mk

/-- ConfigParser `getboolean`: case-insensitive 1/yes/true/on and
0/no/false/off; any other string raises ValueError. -/
def pyGetBoolean (s : String) : Except PyErr Bool :=
  let t := String.mk (s.toList.map Char.toLower)
  if t = "1" ∨ t = "yes" ∨ t = "true" ∨ t = "on" then .ok true
  else if t = "0" ∨ t = "no" ∨ t = "false" ∨ t = "off" then .ok false
  else .error .valueError

/-- Typed setting values held in the settings store (configparser.py keeps
booleans, integers, the thumbnail-size pair, and plain strings). -/
inductive Value where
  | vbool : Bool → Value
  | vint : Int → Value
  | vpair : Int → Int → Value
  | vstr : String → Value
deriving DecidableEq

/-- Python `str()` of a stored settings value, as used when the fallback
warning interpolates the current value with %s. -/
def pyStr : Value → String
  | .vbool b => if b then "True" else "False"
  | .vint n => toString n
  | .vpair a b => "(" ++ toString a ++ ", " ++ toString b ++ ")"
  | .vstr s => s

/-- The filesystem facts configparser.py consults: the user's home directory
(for `os.path.expanduser`) and which paths are existing directories
(`os.path.isdir`). -/
structure Fs where
  home : String
  isdir : String → Bool

/-- Model of `os.path.expanduser`: replace a leading tilde component by the home
directory; strings not starting with a tilde are returned unchanged. -/
def pyExpanduser (fs : Fs) (s : String) : String :=
  if s = "~" then fs.home
  else if pyStartsWith s "~/" then fs.home ++ String.mk (s.toList.drop 1)
  else s

/-- Nested settings mapping: section name to (key to typed value), as built
by `set_defaults` and mutated by `overwrite_section`. -/
abbrev Settings : Type := List (String × List (String × Value))

/-- The GENERAL section of `set_defaults` in configparser.py. -/
def generalDefaults : List (String × Value) :=
  [("start_fullscreen", .vbool false),
   ("start_slideshow", .vbool false),
   ("slideshow_delay", .vint 2),
   ("shuffle", .vbool false),
   ("display_bar", .vbool true),
   ("default_thumbsize", .vpair 128 128),
   ("geometry", .vstr "800x600"),
   ("search_case_sensitive", .vbool true),
   ("incsearch", .vbool true),
   ("recursive", .vbool false),
   ("rescale_svg", .vbool true),
   ("overzoom", .vbool false),
   ("copy_to_primary", .vbool false),
   ("commandline_padding", .vint 6),
   ("thumb_padding", .vint 10),
   ("completion_height", .vint 200)]

/-- The LIBRARY section of `set_defaults` in configparser.py;
`desktop_start_dir` defaults to `os.path.expanduser("~")`. -/
def libraryDefaults (fs : Fs) : List (String × Value) :=
  [("show_library", .vbool false),
   ("library_width", .vint 300),
   ("expand_lib", .vbool true),
   ("border_width", .vint 0),
   ("markup", .vstr "<span foreground=\"#875FFF\">"),
   ("show_hidden", .vbool false),
   ("desktop_start_dir", .vstr (pyExpanduser fs "~")),
   ("file_check_amount", .vint 30),
   ("tilde_in_statusbar", .vbool true)]

/-- Embedding of `set_defaults` of configparser.py: the baseline settings store. -/
def set_defaults (fs : Fs) : Settings :=
  [("GENERAL", generalDefaults),
   ("LIBRARY", libraryDefaults fs),
   ("ALIASES", [])]

/-- The keys `overwrite_section` parses with `int(...)` (lines 77-82 of
configparser.py). -/
def intSettings : List String :=
  ["library_width", "slideshow_delay", "file_check_amount",
   "commandline_padding", "thumb_padding", "completion_height",
   "border_width"]

/-- The `default_thumbsize` parse of `overwrite_section` (lines 70-76):
strip parentheses, split on commas, convert parts 0 and 1 with `int`
(indexing part 1 of a single-part list raises IndexError), then check the
part count.  Only ValueError is caught by the surrounding handler. -/
def parseThumbsize (raw : String) : Except PyErr (Int × Int) :=
  let stripped := pyRstrip (pyLstrip raw '(') ')'
  match pySplitComma stripped with
  | [] => .error .indexError
  | [a] =>
      (match pyInt a with
       | .ok _ => .error .indexError
       | .error e => .error e)
  | a :: b :: rest =>
      (match pyInt a with
       | .error e => .error e
       | .ok x =>
          match pyInt b with
          | .error e => .error e
          | .ok y =>
              if rest.length = 0 then .ok (x, y) else .error .valueError)

/-- The per-type parse in the `try` block of `overwrite_section` (lines
67-97 of configparser.py), producing the value to store, `none` for the
silent `continue` cases (missing directory, malformed markup), or the
exception the parse raised. -/
def parseSetting (fs : Fs) (setting raw : String) : Except PyErr (Option Value) :=
  if setting = "geometry" then .ok (some (.vstr raw))
  else if setting = "default_thumbsize" then
    (parseThumbsize raw).map (fun p => some (.vpair p.1 p.2))
  else if setting ∈ intSettings then
    (pyInt raw).map (fun n => some (.vint n))
  else if setting = "desktop_start_dir" then
    let f := pyExpanduser fs raw
    if fs.isdir f then .ok (some (.vstr f)) else .ok none
  else if setting = "markup" then
    if pyStartsWith raw "<span " && pyEndsWith raw ">" then
      .ok (some (.vstr raw))
    else .ok none
  else
    (pyGetBoolean raw).map (fun b => some (.vbool b))

/-- One iteration of the `for setting in section` loop of
`overwrite_section`: unknown keys append a warning and are skipped; known
keys are parsed per type; ValueError is caught and turned into the fallback
warning; IndexError propagates. -/
def overwriteStep (fs : Fs) (st : List (String × Value) × String)
    (entry : String × String) : Except PyErr (List (String × Value) × String) :=
  match dget st.1 entry.1 with
  | none =>
      .ok (st.1, st.2 ++ "Ignoring unknown setting " ++ entry.1 ++ ".")
  | some current =>
    match parseSetting fs entry.1 entry.2 with
    | .ok none => .ok (st.1, st.2)
    | .ok (some v) => .ok (dset st.1 entry.1 v, st.2)
    | .error .valueError =>
        .ok (st.1, st.2 ++ "Invalid setting \x27" ++ entry.2 ++ "\x27 for \x27"
          ++ entry.1 ++ "\x27.\nFalling back to default \x27"
          ++ pyStr current ++ "\x27.\n\n")
    | .error e => .error e

/-- The whole `for setting in section` loop, threading the section dict and
the accumulated message; an uncaught exception aborts the loop. -/
def overwriteLoop (fs : Fs) :
    List (String × String) → List (String × Value) × String →
    Except PyErr (List (String × Value) × String)
  | [], st => .ok st
  | e :: rest, st =>
      match overwriteStep fs st e with
      | .ok st' => overwriteLoop fs rest st'
      | .error err => .error err

/-- Embedding of `overwrite_section(key, config, settings)` of configparser.py: process
every entry of `config[key]` against `settings[key]`, returning the updated
settings and the warning text (or propagating an uncaught exception). -/
def overwrite_section (fs : Fs) (key : String)
    (config : List (String × List (String × String))) (settings : Settings) :
    Except PyErr (Settings × String) :=
  let sectionEntries := (dget config key).getD []
  let sect0 := ((dget settings key).getD [])
  match overwriteLoop fs sectionEntries (sect0, "") with
  | .ok st => .ok (dset settings key st.1, st.2)
  | .error e => .error e

/-- Serialization of a settings section back to raw strings with Python
`str()`, the form a round-tripping configuration file would contain. -/
def serializeSection (sect : List (String × Value)) : List (String × String) :=
  sect.map (fun p => (p.1, pyStr p.2))

/-- Input to `parse_keys` (configparser.py lines 185-241): whether
`keys.read` found any keys file, whether it hit a duplicate option (with the
parser's own message text), and the sections the parsed file provides. -/
structure KeysInput where
  fileFound : Bool
  dupOption : Bool
  dupMessage : String
  sections : List (String × List (String × String))

/-- The five sections `parse_keys` accesses, in access order; the first
missing one raises the KeyError that aborts the process. -/
def requiredSections : List String :=
  ["IMAGE", "THUMBNAIL", "LIBRARY", "MANIPULATE", "COMMAND"]

/-- Embedding of `update_keybindings(sections, keydict)` of parse_keys: for each listed
shared section present in the file, `keydict.update(keys[section])`. -/
def update_keybindings (cfg : List (String × List (String × String)))
    (sectionNames : List String) (keydict : List (String × String)) :
    List (String × String) :=
  sectionNames.foldl
    (fun d s =>
      match dget cfg s with
      | some sec => dupdate d sec
      | none => d)
    keydict

/-- Embedding of `parse_keys` of configparser.py: exit (modelled as `.error` carrying the
reported message) when no keys file is found, on a duplicate option, or on a
missing required section; otherwise merge the deprecated shared sections
into the per-mode dictionaries and return the keybinding mapping. -/
def parse_keys (inp : KeysInput) :
    Except String (List (String × List (String × String))) :=
  if inp.fileFound = false then .error "Keyfile not found. Exiting."
  else if inp.dupOption then
    .error (inp.dupMessage ++ ".\n Duplicate keybinding. Exiting.")
  else
    match requiredSections.find? (fun s => (dget inp.sections s).isNone) with
    | some s =>
        .error ("Missing section \x27" ++ s
          ++ "\x27 in keys.conf.\nRefer to vimivrc(5) to fix your config.")
    | none =>
        let keys_image := (dget inp.sections "IMAGE").getD []
        let keys_thumbnail := (dget inp.sections "THUMBNAIL").getD []
        let keys_library := (dget inp.sections "LIBRARY").getD []
        let keys_manipulate := (dget inp.sections "MANIPULATE").getD []
        let keys_command := (dget inp.sections "COMMAND").getD []
        .ok [("IMAGE",
               update_keybindings inp.sections ["GENERAL", "IM_THUMB", "IM_LIB"]
                 keys_image),
             ("THUMBNAIL",
               update_keybindings inp.sections ["GENERAL", "IM_THUMB"]
                 keys_thumbnail),
             ("LIBRARY",
               update_keybindings inp.sections ["GENERAL", "IM_LIB"]
                 keys_library),
             ("MANIPULATE", keys_manipulate),
             ("COMMAND", keys_command)]

/-- Lookup of key `k` in section `name` of a parsed keys file (none if the
section is absent or does not bind `k`). -/
def sectGet (cfg : List (String × List (String × String))) (name k : String) :
    Option String :=
  (dget cfg name).bind (fun d => dget d k)

/-- The command `parse_keys` finally binds to key-combination `k` in mode
`mode` (none on an error exit, an unknown mode, or an unbound key). -/
def keyBinding (inp : KeysInput) (mode k : String) : Option String :=
  (parse_keys inp).toOption.bind (fun kb => (dget kb mode).bind (fun d => dget d k))

/-- The deprecated shared sections parse_keys merges. -/
def sharedSectionNames : List String := ["GENERAL", "IM_THUMB", "IM_LIB"]

/-- Model of `os.path.basename`: everything after the last slash. -/
def basename (s : String) : String :=
  String.mk (((splitChars s.toList (fun c => c = '/')).getLast?).getD s.toList)

/-- Outcome of `Library.move_pos` / `Library.reload`: the treeview cursor
target if `set_cursor` was called, the key handler's numeric-prefix string
afterwards, and the status-bar error message if one was reported. -/
structure MoveResult where
  cursor : Option Int
  num_str : String
  err : Option String
deriving DecidableEq

/-- Embedding of `Library.move_pos(forward, defined_pos)` of library.py, as a function of
the file listing and the key handler's pending numeric-prefix string.  An
empty listing only warns; an explicit integer position is used as is; a
pending prefix is parsed 1-based and range-checked; otherwise the cursor
goes to the last (`forward`) or first entry.  `num_clear()` calls are
reflected in the returned `num_str`. -/
def move_pos (files : List String) (num_str : String) (forward : Bool)
    (defined_pos : Option Int) : Except PyErr MoveResult :=
  if files.isEmpty then
    .ok { cursor := none, num_str := num_str,
          err := some "Warning: Directory is empty" }
  else
    let max_pos : Int := (files.length : Int) - 1
    match defined_pos with
    | some p => .ok { cursor := some p, num_str := "", err := none }
    | none =>
      if num_str ≠ "" then
        match pyInt num_str with
        | .error e => .error e
        | .ok n =>
          let new_pos := n - 1
          if new_pos < 0 ∨ new_pos > max_pos then
            .ok { cursor := none, num_str := "",
                  err := some "Warning: Unsupported index" }
          else
            .ok { cursor := some new_pos, num_str := "", err := none }
      else if forward then
        .ok { cursor := some max_pos, num_str := "", err := none }
      else
        .ok { cursor := some 0, num_str := "", err := none }

/-- The cursor-restoring tail of `Library.reload(directory, last_directory)`
(library.py lines 277-283), as a function of the position memory `dir_pos`,
the freshly created file listing, and the pending numeric prefix: a
remembered position for `directory` wins, else the index of
`basename(last_directory)` if present in the listing, else no move. -/
def reload (dir_pos : List (String × Int)) (files : List String)
    (num_str : String) (directory last_directory : String) :
    Except PyErr MoveResult :=
  match dget dir_pos directory with
  | some p => move_pos files num_str true (some p)
  | none =>
    if basename last_directory ∈ files then
      move_pos files num_str true
        (some ((files.indexOf (basename last_directory) : Nat) : Int))
    else
      .ok { cursor := none, num_str := num_str, err := none }

/-- A Python argument value as passed to `Library.resize`'s `val`
parameter: absent (None), a string from the command line, or an integer. -/
inductive PyArg where
  | pnone : PyArg
  | pstr : String → PyArg
  | pint : Int → PyArg
deriving DecidableEq

/-- Python truthiness test `not val` used by resize: None, the empty string
and 0 are falsy. -/
def PyArg.falsy : PyArg → Bool
  | .pnone => true
  | .pstr s => s = ""
  | .pint n => n = 0

/-- Python `int(val)` on a resize argument; the bare `except:` of resize
catches any of the resulting error kinds. -/
def pyIntOf : PyArg → Except PyErr Int
  | .pnone => .error .typeError
  | .pstr s => pyInt s
  | .pint n => .ok n

/-- The library-pane state `resize` reads and writes: the current width,
the configured default width, and the window width `winsize[0]`. -/
structure ResizeState where
  width : Int
  default_width : Int
  winWidth : Int
deriving DecidableEq

/-- The "reasonable limits" applied at the end of `Library.resize`
(library.py lines 350-354): an if/elif chain, so the upper bound is applied
first and the lower bound only otherwise. -/
def clampWidth (winWidth w : Int) : Int :=
  if w > winWidth - 200 then winWidth - 200
  else if w < 100 then 100
  else w

/-- Embedding of `Library.resize(inc, require_val, val)` of library.py: with
`require_val` a falsy `val` is replaced by the default width and the width
is set to the parsed value; otherwise a falsy `val` is replaced by 20 and
the width grows or shrinks by it; a value `int()` cannot parse reports a
status-bar error and leaves the width untouched; successful updates are
clamped by `clampWidth`. -/
def resize (st : ResizeState) (inc require_val : Bool) (val : PyArg) :
    ResizeState × Option String :=
  if require_val then
    let v := if val.falsy then PyArg.pint st.default_width else val
    match pyIntOf v with
    | .error _ => (st, some "Library width must be an integer")
    | .ok n => ({ st with width := clampWidth st.winWidth n }, none)
  else
    let v := if val.falsy then PyArg.pint 20 else val
    match pyIntOf v with
    | .error _ => (st, some "Library width must be an integer")
    | .ok n =>
      let w := if inc then st.width + n else st.width - n
      ({ st with width := clampWidth st.winWidth w }, none)

/-- A concrete environment: home directory `/home/user`, every path an
existing directory. -/
def fs0 : Fs := { home := "/home/user", isdir := fun _ => true }

/-- A complete keys file whose IMAGE section and deprecated GENERAL section
both bind the key combination `x`. -/
def exampleKeys : KeysInput :=
  { fileFound := true, dupOption := false, dupMessage := "",
    sections := [("IMAGE", [("x", "modecmd")]),
                 ("THUMBNAIL", []),
                 ("LIBRARY", []),
                 ("MANIPULATE", []),
                 ("COMMAND", []),
                 ("GENERAL", [("x", "sharedcmd")])] }

/-- A keys file with every required section except MANIPULATE. -/
def missingManipulate : KeysInput :=
  { fileFound := true, dupOption := false, dupMessage := "",
    sections := [("IMAGE", []), ("THUMBNAIL", []), ("LIBRARY", []),
                 ("COMMAND", [])] }

lemma move_pos_empty (ns : String) (fwd : Bool) (dp : Option Int) :
    move_pos [] ns fwd dp =
      .ok ⟨none, ns, some "Warning: Directory is empty"⟩ := rfl

lemma move_pos_defined (f : String) (fs : List String) (ns : String)
    (fwd : Bool) (p : Int) :
    move_pos (f :: fs) ns fwd (some p) = .ok ⟨some p, "", none⟩ := rfl

lemma move_pos_noprefix_forward (f : String) (fs : List String) :
    move_pos (f :: fs) "" true none =
      .ok ⟨some (((f :: fs).length : Int) - 1), "", none⟩ := rfl

lemma move_pos_noprefix_backward (f : String) (fs : List String) :
    move_pos (f :: fs) "" false none = .ok ⟨some 0, "", none⟩ := rfl

lemma move_pos_pending (f : String) (fs : List String) (p : String)
    (fwd : Bool) (k : Int) (hp : p ≠ "") (hk : pyInt p = .ok k) :
    move_pos (f :: fs) p fwd none =
      (if k - 1 < 0 ∨ k - 1 > ((f :: fs).length : Int) - 1 then
        .ok ⟨none, "", some "Warning: Unsupported index"⟩
      else .ok ⟨some (k - 1), "", none⟩) := by
  unfold move_pos
  simp only [List.isEmpty_cons, Bool.false_eq_true, if_false, hk, if_pos hp]

/-- C9: an explicit integer `defined_pos` on a non-empty listing moves the
cursor to exactly that index, with no clamping or range check, and clears
the pending numeric prefix. -/
theorem spec_c9 (files : List String) (ns : String) (fwd : Bool) (p : Int)
    (h : files ≠ []) :
    move_pos files ns fwd (some p) = .ok ⟨some p, "", none⟩ := by
  cases files with
  | nil => exact absurd rfl h
  | cons f fs => exact move_pos_defined f fs ns fwd p

/-- Witness for C9 at a concrete out-of-range position: a one-entry listing
still accepts position 5 (and a negative position) unchanged. -/
theorem spec_c9_witness :
    move_pos ["a"] "7" true (some 5) = .ok ⟨some 5, "", none⟩ ∧
    move_pos ["a"] "" false (some (-3)) = .ok ⟨some (-3), "", none⟩ :=
  ⟨spec_c9 ["a"] "7" true 5 (by simp),
   spec_c9 ["a"] "" false (-3) (by simp)⟩

/-- C7: on a non-empty n-entry listing, a pending numeric prefix `p` with
`int(p) = k` moves the cursor to index `k - 1` when `1 ≤ k ≤ n` and clears
the prefix; an out-of-range `k` reports the non-fatal warning, moves
nothing, and still clears the prefix; with no prefix, `forward` moves to
index `n - 1` and otherwise to index 0; on an empty listing only the
empty-directory warning is reported and nothing moves. -/
theorem spec_c7 :
    (∀ (files : List String) (p : String) (fwd : Bool) (k : Int),
      files ≠ [] → p ≠ "" → pyInt p = .ok k →
      ((1 ≤ k ∧ k ≤ (files.length : Int)) →
          move_pos files p fwd none = .ok ⟨some (k - 1), "", none⟩) ∧
      ((k < 1 ∨ (files.length : Int) < k) →
          move_pos files p fwd none =
            .ok ⟨none, "", some "Warning: Unsupported index"⟩)) ∧
    (∀ (files : List String), files ≠ [] →
      move_pos files "" true none =
        .ok ⟨some ((files.length : Int) - 1), "", none⟩ ∧
      move_pos files "" false none = .ok ⟨some 0, "", none⟩) ∧
    (∀ (ns : String) (fwd : Bool) (dp : Option Int),
      move_pos [] ns fwd dp =
        .ok ⟨none, ns, some "Warning: Directory is empty"⟩) := by
  refine ⟨?_, ?_, ?_⟩
  · intro files p fwd k hne hp hk
    cases files with
    | nil => exact absurd rfl hne
    | cons f fs =>
      rw [move_pos_pending f fs p fwd k hp hk]
      constructor
      · intro hrange
        rw [if_neg]
        simp only [List.length_cons] at hrange ⊢
        omega
      · intro hrange
        rw [if_pos]
        simp only [List.length_cons] at hrange ⊢
        omega
  · intro files hne
    cases files with
    | nil => exact absurd rfl hne
    | cons f fs =>
      exact ⟨move_pos_noprefix_forward f fs, move_pos_noprefix_backward f fs⟩
  · intro ns fwd dp
    exact move_pos_empty ns fwd dp

/-- Witness for C7: prefix "3" on a five-entry listing moves to index 2 and
clears the prefix; prefix "99" warns, moves nothing, and clears the prefix;
no prefix moves to the last / first entry; an empty listing warns. -/
theorem spec_c7_witness :
    move_pos ["a", "b", "c", "d", "e"] "3" true none =
      .ok ⟨some 2, "", none⟩ ∧
    move_pos ["a", "b", "c", "d", "e"] "99" true none =
      .ok ⟨none, "", some "Warning: Unsupported index"⟩ ∧
    move_pos ["a", "b", "c", "d", "e"] "" true none =
      .ok ⟨some 4, "", none⟩ ∧
    move_pos [] "7" false none =
      .ok ⟨none, "7", some "Warning: Directory is empty"⟩ :=
  ⟨(spec_c7.1 ["a", "b", "c", "d", "e"] "3" true 3 (by simp) (by simp)
      rfl).1 (by constructor <;> norm_num),
   (spec_c7.1 ["a", "b", "c", "d", "e"] "99" true 99 (by simp) (by simp)
      rfl).2 (by right; norm_num),
   (spec_c7.2.1 ["a", "b", "c", "d", "e"] (by simp)).1,
   spec_c7.2.2 "7" false none⟩

/-- Counterexample to C6 as stated: a remembered position (2) exists for
the reloaded directory, yet because the new listing is empty no cursor move
is performed — `move_pos` only reports the empty-directory warning. -/
theorem spec_c6_counterexample :
    dget [("/a/b", (2 : Int))] "/a/b" = some 2 ∧
    reload [("/a/b", (2 : Int))] [] "" "/a/b" "/a/b/c" =
      .ok ⟨none, "", some "Warning: Directory is empty"⟩ :=
  ⟨rfl, rfl⟩

/-- C6 amended: provided the new listing is non-empty, a remembered
position for `directory` moves the cursor there; with no remembered
position, the cursor moves to the index of `basename(last_directory)` when
that basename is in the listing; otherwise no cursor move is performed.  On
an empty listing with a remembered position, only a warning is reported and
the cursor does not move. -/
theorem spec_c6 (dir_pos : List (String × Int)) (files : List String)
    (ns directory last : String) :
    (∀ p : Int, dget dir_pos directory = some p → files ≠ [] →
      reload dir_pos files ns directory last = .ok ⟨some p, "", none⟩) ∧
    (∀ p : Int, dget dir_pos directory = some p → files = [] →
      reload dir_pos files ns directory last =
        .ok ⟨none, ns, some "Warning: Directory is empty"⟩) ∧
    (dget dir_pos directory = none → basename last ∈ files →
      reload dir_pos files ns directory last =
        .ok ⟨some ((files.indexOf (basename last) : Nat) : Int), "", none⟩) ∧
    (dget dir_pos directory = none → basename last ∉ files →
      reload dir_pos files ns directory last = .ok ⟨none, ns, none⟩) := by
  refine ⟨?_, ?_, ?_, ?_⟩
  · intro p h hne
    unfold reload
    rw [h]
    cases files with
    | nil => exact absurd rfl hne
    | cons f fs => exact move_pos_defined f fs ns true p
  · intro p h hemp
    unfold reload
    rw [h, hemp]
    exact move_pos_empty ns true (some p)
  · intro h hmem
    unfold reload
    rw [h]
    rw [if_pos hmem]
    cases files with
    | nil => exact absurd hmem (List.not_mem_nil _)
    | cons f fs => exact move_pos_defined f fs ns true _
  · intro h hmem
    unfold reload
    rw [h]
    rw [if_neg hmem]

/-- Witness for C6 amended at concrete inputs: a remembered position is
restored; with none remembered, the basename `c` of `/a/b/c` is selected at
its index in the listing; with neither, no move happens. -/
theorem spec_c6_witness :
    reload [("/a/b", (2 : Int))] ["x", "y", "z"] "" "/a/b" "" =
      .ok ⟨some 2, "", none⟩ ∧
    reload [] ["c", "d"] "" "/a/b" "/a/b/c" = .ok ⟨some 0, "", none⟩ ∧
    reload [] ["d", "e"] "5" "/a/b" "/a/b/c" = .ok ⟨none, "5", none⟩ :=
  ⟨(spec_c6 [("/a/b", (2 : Int))] ["x", "y", "z"] "" "/a/b" "").1 2 rfl
      (by simp),
   (spec_c6 [] ["c", "d"] "" "/a/b" "/a/b/c").2.2.1 rfl (by decide),
   (spec_c6 [] ["d", "e"] "5" "/a/b" "/a/b/c").2.2.2 rfl (by decide)⟩

lemma clampWidth_bounds (winWidth w : Int) (h : winWidth ≥ 300) :
    100 ≤ clampWidth winWidth w ∧ clampWidth winWidth w ≤ winWidth - 200 := by
  unfold clampWidth
  split_ifs <;> omega

/-- Counterexample to C8 as stated: with a 250-pixel window the clamp's
if/elif chain first caps the width at `winsize[0] - 200 = 50` and never
applies the lower bound, so a numeric resize to 500 yields width 50, which
is not in the (empty) interval [100, 50]. -/
theorem spec_c8_counterexample :
    (resize ⟨300, 300, 250⟩ true true (.pstr "500")).1.width = 50 ∧
    (resize ⟨300, 300, 250⟩ true true (.pstr "500")).2 = none ∧
    ¬(100 ≤ (resize ⟨300, 300, 250⟩ true true (.pstr "500")).1.width) :=
  ⟨rfl, rfl, by decide⟩

/-- C8 amended: provided the window is at least 300 pixels wide, every
resize call whose (possibly defaulted) value parses as an integer — i.e.
that reports no error — leaves the width within [100, window_width - 200];
a non-empty string `int()` cannot parse reports the non-fatal status-bar
error and leaves the state, in particular the width, unchanged. -/
theorem spec_c8 (st : ResizeState) (inc rv : Bool) (val : PyArg) :
    (∀ st' : ResizeState, resize st inc rv val = (st', none) →
      st.winWidth ≥ 300 →
      100 ≤ st'.width ∧ st'.width ≤ st.winWidth - 200) ∧
    (∀ s : String, val = .pstr s → s ≠ "" → pyInt s = .error .valueError →
      resize st inc rv val = (st, some "Library width must be an integer")) := by
  constructor
  · intro st' h hw
    simp only [resize] at h
    split at h
    · split at h
      · exact absurd (congrArg Prod.snd h) (by simp)
      · have hst : st' = { st with width := clampWidth st.winWidth _ } :=
          (congrArg Prod.fst h).symm
        rw [hst]
        exact clampWidth_bounds st.winWidth _ hw
    · split at h
      · exact absurd (congrArg Prod.snd h) (by simp)
      · have hst : st' = { st with width := clampWidth st.winWidth _ } :=
          (congrArg Prod.fst h).symm
        rw [hst]
        exact clampWidth_bounds st.winWidth _ hw
  · intro s hval hs hparse
    subst hval
    have hfalsy : (PyArg.pstr s).falsy = false := by
      simp [PyArg.falsy, hs]
    simp only [resize, hfalsy, Bool.false_eq_true, if_false, pyIntOf, hparse]
    split <;> rfl

/-- Witness for C8 amended: an in-range numeric update lands in the
interval, and the non-numeric input "abc" reports the error and keeps the
state. -/
theorem spec_c8_witness :
    (100 ≤ (150 : Int) ∧ (150 : Int) ≤ (800 : Int) - 200) ∧
    resize ⟨300, 300, 800⟩ true true (.pstr "abc") =
      (⟨300, 300, 800⟩, some "Library width must be an integer") :=
  ⟨(spec_c8 ⟨300, 300, 800⟩ true true (.pstr "150")).1 ⟨150, 300, 800⟩ rfl
      (by norm_num),
   (spec_c8 ⟨300, 300, 800⟩ true true (.pstr "abc")).2 "abc" rfl (by simp)
      rfl⟩

/-- C10: a falsy `val` (None, the empty string, or 0) with `require_val`
behaves exactly as an explicit `val` equal to the configured default width,
so the width becomes the (clamped) default rather than 0; in grow/shrink
mode a falsy `val` behaves as the default step 20 rather than changing the
width by 0. -/
theorem spec_c10 (st : ResizeState) (val : PyArg) (h : val.falsy = true) :
    (∀ inc : Bool,
      resize st inc true val = resize st inc true (.pint st.default_width)) ∧
    (∀ inc : Bool, resize st inc false val = resize st inc false (.pint 20)) ∧
    (∀ inc : Bool,
      (resize st inc true val).1.width = clampWidth st.winWidth st.default_width) ∧
    (resize st true false val).1.width = clampWidth st.winWidth (st.width + 20) ∧
    (resize st false false val).1.width = clampWidth st.winWidth (st.width - 20) := by
  refine ⟨?_, ?_, ?_, ?_, ?_⟩
  · intro inc
    simp [resize, h, ite_self]
  · intro inc
    simp [resize, h, ite_self]
  · intro inc
    simp [resize, h, ite_self, pyIntOf]
  · simp [resize, h, ite_self, pyIntOf]
  · simp [resize, h, ite_self, pyIntOf]

/-- Witness for C10 at `val = None`: the width is set to the clamped
default width 250, and grow mode adds the default step 20. -/
theorem spec_c10_witness :
    resize ⟨300, 250, 800⟩ true true .pnone =
      resize ⟨300, 250, 800⟩ true true (.pint 250) ∧
    (resize ⟨300, 250, 800⟩ true true .pnone).1.width =
      clampWidth 800 250 ∧
    (resize ⟨300, 250, 800⟩ true false .pnone).1.width =
      clampWidth 800 (300 + 20) :=
  ⟨(spec_c10 ⟨300, 250, 800⟩ .pnone rfl).1 true,
   ((spec_c10 ⟨300, 250, 800⟩ .pnone rfl).2.2.1 true),
   (spec_c10 ⟨300, 250, 800⟩ .pnone rfl).2.2.2.1⟩

/-- C2 (code evaluation at the failing input): the raw value "128" for
`default_thumbsize` — one comma-separated component whose first part parses
as an integer — makes `overwrite_section` raise an uncaught IndexError at
`file_set[1]`, instead of appending the fallback warning: the guarding
length check sits after the indexing and cannot fire for short lists. -/
theorem spec_c2 :
    overwrite_section fs0 "GENERAL"
      [("GENERAL", [("default_thumbsize", "128")])] (set_defaults fs0) =
      .error .indexError := rfl

lemma dget_dset {α : Type} (d : List (String × α)) (a k : String) (b : α) :
    dget (dset d a b) k = if a = k then some b else dget d k := by
  induction d with
  | nil => rfl
  | cons hd tl ih =>
    obtain ⟨x, w⟩ := hd
    by_cases hxa : x = a
    · subst hxa
      by_cases hxk : x = k <;> simp [dset, dget, hxk]
    · simp only [dset, if_neg hxa, dget]
      by_cases hxk : x = k
      · have hak : ¬(a = k) := fun h2 => hxa (hxk.trans h2.symm)
        simp [hxk, hak]
      · simp [hxk, ih]

lemma overwriteLoop_append (fs : Fs) (l1 l2 : List (String × String))
    (st : List (String × Value) × String) :
    overwriteLoop fs (l1 ++ l2) st =
      (match overwriteLoop fs l1 st with
       | .ok st' => overwriteLoop fs l2 st'
       | .error e => .error e) := by
  induction l1 generalizing st with
  | nil => rfl
  | cons e rest ih =>
    simp only [List.cons_append, overwriteLoop]
    cases overwriteStep fs st e with
    | ok st' => exact ih st'
    | error err => rfl

lemma overwriteStep_absent (fs : Fs) (st : List (String × Value) × String)
    (e : String × String) (st' : List (String × Value) × String) (k : String)
    (h : overwriteStep fs st e = .ok st') (habs : dget st.1 k = none) :
    dget st'.1 k = none := by
  simp only [overwriteStep] at h
  cases hd : dget st.1 e.1 with
  | none =>
    rw [hd] at h
    cases h
    exact habs
  | some current =>
    rw [hd] at h
    have hne : e.1 ≠ k := by
      intro hek
      rw [hek, habs] at hd
      exact Option.noConfusion hd
    cases hp : parseSetting fs e.1 e.2 with
    | ok ov =>
      rw [hp] at h
      cases ov with
      | none =>
        cases h
        exact habs
      | some v =>
        cases h
        rw [dget_dset, if_neg hne]
        exact habs
    | error err =>
      rw [hp] at h
      cases err with
      | valueError =>
        cases h
        exact habs
      | indexError => exact Except.noConfusion h
      | typeError => exact Except.noConfusion h

lemma overwriteLoop_absent (fs : Fs) (entries : List (String × String))
    (st st' : List (String × Value) × String) (k : String)
    (h : overwriteLoop fs entries st = .ok st') (habs : dget st.1 k = none) :
    dget st'.1 k = none := by
  induction entries generalizing st with
  | nil =>
    simp only [overwriteLoop] at h
    cases h
    exact habs
  | cons e rest ih =>
    simp only [overwriteLoop] at h
    cases hstep : overwriteStep fs st e with
    | ok st1 =>
      rw [hstep] at h
      exact ih st1 h (overwriteStep_absent fs st e st1 k hstep habs)
    | error err =>
      rw [hstep] at h
      exact Except.noConfusion h

lemma overwriteStep_unknown (fs : Fs) (sect : List (String × Value))
    (msg k v : String) (habs : dget sect k = none) :
    overwriteStep fs (sect, msg) (k, v) =
      .ok (sect, msg ++ "Ignoring unknown setting " ++ k ++ ".") := by
  simp only [overwriteStep, habs]

/-- C5: for every key `k` of a GENERAL or LIBRARY section that is not among
the known settings of that section, `overwrite_section` leaves the settings
store exactly as it would be without that entry and appends exactly one
warning naming `k`. -/
theorem spec_c5 (fs : Fs) (key : String) (entries : List (String × String))
    (k v : String) (settings : Settings)
    (h : dget ((dget settings key).getD []) k = none) :
    overwrite_section fs key [(key, entries ++ [(k, v)])] settings =
      (overwrite_section fs key [(key, entries)] settings).map
        (fun r => (r.1, r.2 ++ "Ignoring unknown setting " ++ k ++ ".")) := by
  simp only [overwrite_section, dget, eq_self_iff_true, if_true,
    Option.getD_some]
  rw [overwriteLoop_append]
  cases hl : overwriteLoop fs entries ((dget settings key).getD [], "") with
  | error e => rfl
  | ok st' =>
    have habs : dget st'.1 k = none :=
      overwriteLoop_absent fs entries _ st' k hl h
    obtain ⟨sect', msg'⟩ := st'
    simp only [overwriteLoop, overwriteStep_unknown fs sect' msg' k v habs,
      Except.map]

/-- Witness for C5: the unknown key `foo` in a GENERAL section leaves the
default settings untouched and appends exactly its one warning. -/
theorem spec_c5_witness :
    overwrite_section fs0 "GENERAL" [("GENERAL", [("foo", "bar")])]
        (set_defaults fs0) =
      (overwrite_section fs0 "GENERAL" [("GENERAL", [])]
          (set_defaults fs0)).map
        (fun r => (r.1, r.2 ++ "Ignoring unknown setting " ++ "foo" ++ ".")) :=
  spec_c5 fs0 "GENERAL" [] "foo" "bar" (set_defaults fs0) rfl

/-- C3: `parse_keys` terminates the process (returns an error exit) exactly
when no keys file was found, the keys file had a duplicate option, or one
of the five required sections is missing; and when a required section is
missing the reported message names that (first missing) section. -/
theorem spec_c3 (inp : KeysInput) :
    ((∃ m, parse_keys inp = .error m) ↔
      (inp.fileFound = false ∨ inp.dupOption = true ∨
        ∃ s ∈ requiredSections, dget inp.sections s = none)) ∧
    (∀ s : String,
      requiredSections.find? (fun t => (dget inp.sections t).isNone) = some s →
      inp.fileFound = true → inp.dupOption = false →
      parse_keys inp = .error ("Missing section \x27" ++ s
        ++ "\x27 in keys.conf.\nRefer to vimivrc(5) to fix your config.")) := by
  by_cases hf : inp.fileFound = false
  · have hpk : parse_keys inp = .error "Keyfile not found. Exiting." := by
      simp [parse_keys, hf]
    refine ⟨⟨fun _ => Or.inl hf, fun _ => ⟨_, hpk⟩⟩, ?_⟩
    intro s _ hf2 _
    rw [hf2] at hf
    exact absurd hf (by simp)
  · have hf' : inp.fileFound = true := by
      revert hf
      cases inp.fileFound <;> simp
    by_cases hd : inp.dupOption = true
    · have hpk : parse_keys inp =
          .error (inp.dupMessage ++ ".\n Duplicate keybinding. Exiting.") := by
        simp [parse_keys, hf', hd]
      refine ⟨⟨fun _ => Or.inr (Or.inl hd), fun _ => ⟨_, hpk⟩⟩, ?_⟩
      intro s _ _ hd2
      rw [hd2] at hd
      exact absurd hd (by simp)
    · have hd' : inp.dupOption = false := by
        revert hd
        cases inp.dupOption <;> simp
      cases hfind : requiredSections.find? (fun t => (dget inp.sections t).isNone) with
      | some s =>
        have hpk : parse_keys inp = .error ("Missing section \x27" ++ s
            ++ "\x27 in keys.conf.\nRefer to vimivrc(5) to fix your config.") := by
          simp [parse_keys, hf', hd', hfind]
        refine ⟨⟨?_, fun _ => ⟨_, hpk⟩⟩, ?_⟩
        · intro _
          refine Or.inr (Or.inr ⟨s, List.mem_of_find?_eq_some hfind, ?_⟩)
          have hp := List.find?_some hfind
          simpa [Option.isNone_iff_eq_none] using hp
        · intro t hfind2 _ _
          cases hfind2
          exact hpk
      | none =>
        have hpk : ∀ m, parse_keys inp ≠ .error m := by
          intro m hm
          simp [parse_keys, hf', hd', hfind] at hm
        refine ⟨⟨?_, ?_⟩, ?_⟩
        · rintro ⟨m, hm⟩
          exact absurd hm (hpk m)
        · intro hrhs
          rcases hrhs with h1 | h2 | ⟨s, hsmem, hsnone⟩
          · rw [hf'] at h1
            exact absurd h1 (by simp)
          · exact absurd h2 hd
          · have hnn := List.find?_eq_none.mp hfind s hsmem
            simp only [Option.isNone_iff_eq_none] at hnn
            exact absurd hsnone hnn
        · intro t hfind2
          exact Option.noConfusion hfind2

/-- Witness for C3: a keys file lacking only MANIPULATE exits with a
message naming MANIPULATE. -/
theorem spec_c3_witness :
    parse_keys missingManipulate = .error ("Missing section \x27MANIPULATE"
      ++ "\x27 in keys.conf.\nRefer to vimivrc(5) to fix your config.") :=
  (spec_c3 missingManipulate).2 "MANIPULATE" rfl rfl rfl

set_option maxHeartbeats 3200000 in
/-- C4: serializing every typed default (boolean, integer, 2-tuple,
geometry string, markup string, existing-directory path) with Python `str`
and feeding the strings back through `overwrite_section` stores back
exactly the original typed values and produces no warning, for both the
GENERAL section (including `(128, 128)` → `"(128, 128)"` → `(128, 128)`)
and the LIBRARY section.  The hypotheses say the home directory is an
already-expanded path naming an existing directory. -/
theorem spec_c4 (fs : Fs) (h1 : pyExpanduser fs fs.home = fs.home)
    (h2 : fs.isdir fs.home = true) :
    overwrite_section fs "GENERAL" [("GENERAL", serializeSection generalDefaults)]
        (set_defaults fs) = .ok (set_defaults fs, "") ∧
    overwrite_section fs "LIBRARY"
        [("LIBRARY", serializeSection (libraryDefaults fs))]
        (set_defaults fs) = .ok (set_defaults fs, "") := by
  constructor
  · rfl
  · have step7 : overwriteStep fs (libraryDefaults fs, "")
        ("desktop_start_dir", fs.home) = .ok (libraryDefaults fs, "") := by
      have hps : parseSetting fs "desktop_start_dir" fs.home =
          (if fs.isdir (pyExpanduser fs fs.home) = true then
            Except.ok (some (Value.vstr (pyExpanduser fs fs.home)))
          else Except.ok none) := rfl
      have hps2 : parseSetting fs "desktop_start_dir" fs.home =
          Except.ok (some (Value.vstr fs.home)) := by
        rw [hps, h1, h2]
        simp
      have hsect : dset (libraryDefaults fs) "desktop_start_dir"
          (Value.vstr fs.home) = libraryDefaults fs := by
        show dset (libraryDefaults fs) "desktop_start_dir"
          (Value.vstr (pyExpanduser fs "~")) = libraryDefaults fs
        rfl
      show (match parseSetting fs "desktop_start_dir" fs.home with
            | .ok none => Except.ok (libraryDefaults fs, "")
            | .ok (some v) =>
                Except.ok (dset (libraryDefaults fs) "desktop_start_dir" v, "")
            | .error .valueError =>
                Except.ok (libraryDefaults fs,
                  "" ++ "Invalid setting \x27" ++ fs.home ++ "\x27 for \x27"
                  ++ "desktop_start_dir" ++ "\x27.\nFalling back to default \x27"
                  ++ pyStr (Value.vstr (pyExpanduser fs "~")) ++ "\x27.\n\n")
            | .error e => Except.error e) = .ok (libraryDefaults fs, "")
      rw [hps2]
      show Except.ok
          (dset (libraryDefaults fs) "desktop_start_dir" (Value.vstr fs.home),
           "") = Except.ok (libraryDefaults fs, "")
      rw [hsect]
    have hpre : overwriteLoop fs
        [("show_library", "False"), ("library_width", "300"),
         ("expand_lib", "True"), ("border_width", "0"),
         ("markup", "<span foreground=\"#875FFF\">"),
         ("show_hidden", "False")] (libraryDefaults fs, "") =
        .ok (libraryDefaults fs, "") := rfl
    have hloop : overwriteLoop fs (serializeSection (libraryDefaults fs))
        (libraryDefaults fs, "") = .ok (libraryDefaults fs, "") := by
      have hsplit : serializeSection (libraryDefaults fs) =
          [("show_library", "False"), ("library_width", "300"),
           ("expand_lib", "True"), ("border_width", "0"),
           ("markup", "<span foreground=\"#875FFF\">"),
           ("show_hidden", "False")] ++
          (("desktop_start_dir", fs.home) ::
           [("file_check_amount", "30"), ("tilde_in_statusbar", "True")]) := rfl
      rw [hsplit, overwriteLoop_append, hpre]
      simp only [overwriteLoop]
      rw [step7]
      rfl
    have hcfg : (dget [("LIBRARY", serializeSection (libraryDefaults fs))]
        "LIBRARY").getD [] = serializeSection (libraryDefaults fs) := rfl
    have hsect0 : (dget (set_defaults fs) "LIBRARY").getD [] =
        libraryDefaults fs := rfl
    simp only [overwrite_section]
    rw [hcfg, hsect0, hloop]
    rfl

/-- Witness for C4 in the concrete environment `fs0`: all defaults of both
sections round-trip through their string forms. -/
theorem spec_c4_witness :
    overwrite_section fs0 "GENERAL"
        [("GENERAL", serializeSection generalDefaults)] (set_defaults fs0) =
      .ok (set_defaults fs0, "") ∧
    overwrite_section fs0 "LIBRARY"
        [("LIBRARY", serializeSection (libraryDefaults fs0))]
        (set_defaults fs0) =
      .ok (set_defaults fs0, "") :=
  spec_c4 fs0 rfl rfl

lemma oor_none {α : Type} (x : Option α) : oor none x = x := rfl

lemma oor_some {α : Type} (y : α) (x : Option α) : oor (some y) x = some y := rfl

lemma dget_none_of_not_mem {α : Type} (d : List (String × α)) (k : String)
    (h : k ∉ d.map Prod.fst) : dget d k = none := by
  induction d with
  | nil => rfl
  | cons p tl ih =>
    obtain ⟨x, v⟩ := p
    simp only [List.map_cons, List.mem_cons] at h
    push_neg at h
    simp only [dget]
    rw [if_neg (fun hxk => h.1 hxk.symm)]
    exact ih h.2

lemma dget_dupdate {α : Type} (d sec : List (String × α)) (k : String)
    (h : (sec.map Prod.fst).Nodup) :
    dget (dupdate d sec) k = oor (dget sec k) (dget d k) := by
  induction sec generalizing d with
  | nil => rfl
  | cons p rest ih =>
    obtain ⟨a, b⟩ := p
    simp only [List.map_cons, List.nodup_cons] at h
    obtain ⟨hna, hnd⟩ := h
    have hstep : dupdate d ((a, b) :: rest) = dupdate (dset d a b) rest := rfl
    rw [hstep, ih (dset d a b) hnd, dget_dset]
    show oor (dget rest k) (if a = k then some b else dget d k) =
      oor (if a = k then some b else dget rest k) (dget d k)
    by_cases hak : a = k
    · subst hak
      rw [if_pos rfl, if_pos rfl, dget_none_of_not_mem rest a hna]
      rfl
    · rw [if_neg hak, if_neg hak]

lemma dget_update_step (cfg : List (String × List (String × String)))
    (name : String) (d : List (String × String)) (k : String)
    (h : ∀ sec, dget cfg name = some sec → (sec.map Prod.fst).Nodup) :
    dget (match dget cfg name with
          | some sec => dupdate d sec
          | none => d) k = oor (sectGet cfg name k) (dget d k) := by
  cases hn : dget cfg name with
  | none => simp [sectGet, hn, oor_none]
  | some sec =>
    simp only [sectGet, hn, Option.bind_some]
    exact dget_dupdate d sec k (h sec hn)

lemma dget_update_keybindings (cfg : List (String × List (String × String)))
    (names : List String) (d : List (String × String)) (k : String)
    (h : ∀ name ∈ names, ∀ sec, dget cfg name = some sec →
      (sec.map Prod.fst).Nodup) :
    dget (update_keybindings cfg names d) k =
      names.foldl (fun acc n => oor (sectGet cfg n k) acc) (dget d k) := by
  induction names generalizing d with
  | nil => rfl
  | cons n rest ih =>
    have hstep : update_keybindings cfg (n :: rest) d =
        update_keybindings cfg rest
          (match dget cfg n with
           | some sec => dupdate d sec
           | none => d) := rfl
    rw [hstep, ih _ (fun m hm => h m (List.mem_cons_of_mem n hm))]
    rw [dget_update_step cfg n d k (h n (List.mem_cons_self n rest))]
    rfl

/-- Counterexample to C1 as stated: in `exampleKeys` the key combination
`x` is bound in both the IMAGE section (to `modecmd`) and the deprecated
GENERAL section (to `sharedcmd`); `parse_keys` resolves it to the GENERAL
command, not the mode-specific one, because `keydict.update(keys[section])`
lets shared entries overwrite per-mode entries. -/
theorem spec_c1_counterexample :
    keyBinding exampleKeys "IMAGE" "x" = some "sharedcmd" ∧
    keyBinding exampleKeys "IMAGE" "x" ≠ some "modecmd" :=
  ⟨rfl, by decide⟩

/-- C1 amended: in the mappings returned by `parse_keys`, a key defined in
several applicable sections resolves to the command of the *last merged*
applicable section — merge order is the mode's own section, then GENERAL,
then IM_THUMB / IM_LIB — so deprecated shared-section entries are favored
over mode-specific entries, not the other way round. -/
theorem spec_c1 (inp : KeysInput) (k : String)
    (hf : inp.fileFound = true) (hd : inp.dupOption = false)
    (hc : ∀ s ∈ requiredSections, (dget inp.sections s).isSome = true)
    (hn : ∀ name ∈ sharedSectionNames, ∀ sec,
      dget inp.sections name = some sec → (sec.map Prod.fst).Nodup) :
    keyBinding inp "IMAGE" k =
      oor (sectGet inp.sections "IM_LIB" k)
        (oor (sectGet inp.sections "IM_THUMB" k)
          (oor (sectGet inp.sections "GENERAL" k)
            (sectGet inp.sections "IMAGE" k))) ∧
    keyBinding inp "THUMBNAIL" k =
      oor (sectGet inp.sections "IM_THUMB" k)
        (oor (sectGet inp.sections "GENERAL" k)
          (sectGet inp.sections "THUMBNAIL" k)) ∧
    keyBinding inp "LIBRARY" k =
      oor (sectGet inp.sections "IM_LIB" k)
        (oor (sectGet inp.sections "GENERAL" k)
          (sectGet inp.sections "LIBRARY" k)) := by
  have hfind : requiredSections.find?
      (fun t => (dget inp.sections t).isNone) = none := by
    rw [List.find?_eq_none]
    intro s hs hp
    have hsome := hc s hs
    rw [Option.isNone_iff_eq_none] at hp
    rw [hp] at hsome
    exact Bool.noConfusion hsome
  have hpk : parse_keys inp =
      .ok [("IMAGE",
             update_keybindings inp.sections ["GENERAL", "IM_THUMB", "IM_LIB"]
               ((dget inp.sections "IMAGE").getD [])),
           ("THUMBNAIL",
             update_keybindings inp.sections ["GENERAL", "IM_THUMB"]
               ((dget inp.sections "THUMBNAIL").getD [])),
           ("LIBRARY",
             update_keybindings inp.sections ["GENERAL", "IM_LIB"]
               ((dget inp.sections "LIBRARY").getD [])),
           ("MANIPULATE", (dget inp.sections "MANIPULATE").getD []),
           ("COMMAND", (dget inp.sections "COMMAND").getD [])] := by
    simp [parse_keys, hf, hd, hfind]
  have hnod : ∀ names : List String, (∀ n ∈ names, n ∈ sharedSectionNames) →
      ∀ name ∈ names, ∀ sec, dget inp.sections name = some sec →
        (sec.map Prod.fst).Nodup :=
    fun names hsub name hmem sec hsec => hn name (hsub name hmem) sec hsec
  have hsect : ∀ name, name ∈ requiredSections →
      dget ((dget inp.sections name).getD []) k = sectGet inp.sections name k := by
    intro name hmem
    obtain ⟨sec, hsec⟩ := Option.isSome_iff_exists.mp (hc name hmem)
    rw [hsec, Option.getD_some]
    simp [sectGet, hsec]
  refine ⟨?_, ?_, ?_⟩
  · have hmode : keyBinding inp "IMAGE" k =
        dget (update_keybindings inp.sections ["GENERAL", "IM_THUMB", "IM_LIB"]
          ((dget inp.sections "IMAGE").getD [])) k := by
      simp only [keyBinding, hpk, Except.toOption, Option.bind_some]
      rfl
    rw [hmode, dget_update_keybindings _ _ _ _
      (hnod ["GENERAL", "IM_THUMB", "IM_LIB"] (by intro n hn2; exact hn2))]
    rw [hsect "IMAGE" (by simp [requiredSections])]
    rfl
  · have hmode : keyBinding inp "THUMBNAIL" k =
        dget (update_keybindings inp.sections ["GENERAL", "IM_THUMB"]
          ((dget inp.sections "THUMBNAIL").getD [])) k := by
      simp only [keyBinding, hpk, Except.toOption, Option.bind_some]
      rfl
    rw [hmode, dget_update_keybindings _ _ _ _
      (hnod ["GENERAL", "IM_THUMB"] (by intro n hn2; fin_cases hn2 <;> simp [sharedSectionNames]))]
    rw [hsect "THUMBNAIL" (by simp [requiredSections])]
    rfl
  · have hmode : keyBinding inp "LIBRARY" k =
        dget (update_keybindings inp.sections ["GENERAL", "IM_LIB"]
          ((dget inp.sections "LIBRARY").getD [])) k := by
      simp only [keyBinding, hpk, Except.toOption, Option.bind_some]
      rfl
    rw [hmode, dget_update_keybindings _ _ _ _
      (hnod ["GENERAL", "IM_LIB"] (by intro n hn2; fin_cases hn2 <;> simp [sharedSectionNames]))]
    rw [hsect "LIBRARY" (by simp [requiredSections])]
    rfl

/-- Witness for C1 amended at `exampleKeys`: the resolved binding of `x`
follows the shared-over-mode precedence chain in all three merged modes. -/
theorem spec_c1_witness :
    keyBinding exampleKeys "IMAGE" "x" =
      oor (sectGet exampleKeys.sections "IM_LIB" "x")
        (oor (sectGet exampleKeys.sections "IM_THUMB" "x")
          (oor (sectGet exampleKeys.sections "GENERAL" "x")
            (sectGet exampleKeys.sections "IMAGE" "x"))) ∧
    keyBinding exampleKeys "THUMBNAIL" "x" =
      oor (sectGet exampleKeys.sections "IM_THUMB" "x")
        (oor (sectGet exampleKeys.sections "GENERAL" "x")
          (sectGet exampleKeys.sections "THUMBNAIL" "x")) ∧
    keyBinding exampleKeys "LIBRARY" "x" =
      oor (sectGet exampleKeys.sections "IM_LIB" "x")
        (oor (sectGet exampleKeys.sections "GENERAL" "x")
          (sectGet exampleKeys.sections "LIBRARY" "x")) :=
  spec_c1 exampleKeys "x" rfl rfl (by decide)
    (by
      intro name hmem sec hsec
      fin_cases hmem
      · have h2 : some ([("x", "sharedcmd")] : List (String × String)) =
            some sec := hsec
        cases h2
        decide
      · exact Option.noConfusion hsec
      · exact Option.noConfusion hsec)
